import Mathlib

/-!
# Verification of the `thelook-analytics` simulation core

Shallow embedding of the data-simulation command (`core/management/commands/
simulate_data.py`), the simulation constants (`core/simulation_constants.py`),
the event catalog (`core/simulation/events.py`), the Django models
(`core/models.py`) and the cache read layer (`core/data_utils.py`).

Modelling conventions:
* Python floats are embedded as exact rationals (`ℚ`); no claim here depends
  on binary floating-point rounding.
* Calendar dates are embedded as day ordinals (`Int`, proleptic Gregorian,
  epoch 1970-01-01) with explicit civil-date conversions; `date.weekday()`
  uses Python's convention (Monday = 0).
* The pseudo-random generators (`random`, `numpy.random`, `Faker`) are
  embedded as deterministic streams: a generator state is a `Nat`, advanced
  by a linear congruential step.  Each kind of draw (`random.random`,
  `random.randint`, `np.random.uniform`, `np.random.choice`,
  `np.random.poisson`, the Faker value factories) is a deterministic function
  of the current state, exactly as the seeded Mersenne twisters are in the
  source; the particular distribution of a draw is irrelevant to the claims,
  which concern determinism, ranges and control flow.
* Fallible operations (a Python `dict[...]` access, a Django model
  constructor, a Redis pipeline `execute`) return `Option`/`Except`.
-/

namespace TheLook

/-! ## Constants (`core/simulation_constants.py`) -/

def SEGMENTS : List String := ["Gold", "Silver", "Bronze"]

def REGIONS : List String := ["Sudeste", "Sul", "Nordeste", "Centro-Oeste", "Norte"]

def CATEGORIES : List String := ["Eletrônicos", "Roupas", "Casa", "Esporte", "Livros"]

def CHANNELS : List String := ["Online", "Store", "Phone", "App"]

def STATUS : List String := ["Completed", "Pending", "Cancelled", "Returned"]

def WEEKEND_BOOST_MIN : ℚ := 1

def WEEKEND_BOOST_MAX : ℚ := 13/10

def BLACK_FRIDAY_MONTH : Nat := 11

def BLACK_FRIDAY_START_DAY : Nat := 20

def BLACK_FRIDAY_END_DAY : Nat := 30

def BLACK_FRIDAY_BASE_MULTIPLIER : ℚ := 7/2

def CYBER_MONDAY_MONTH : Nat := 12

def CYBER_MONDAY_START_DAY : Nat := 1

def CYBER_MONDAY_END_DAY : Nat := 7

def CHRISTMAS_MONTH : Nat := 12

def CHRISTMAS_START_DAY : Nat := 10

def CHRISTMAS_END_DAY : Nat := 24

def POST_CHRISTMAS_START_DAY : Nat := 25

def JANUARY_MONTH : Nat := 1

def COMPANY_ANNIVERSARY_MONTH : Nat := 5

def MIN_SEASONALITY_MULTIPLIER : ℚ := 1/2

def CAGR_ANNUAL_RATE : ℚ := 12/100

def MARKET_EVENT_PROBABILITY : ℚ := 5/1000

def MARKET_EVENTS : List String := ["viral", "marketing", "site_down", "logistics_crisis"]

def MARKET_EVENT_MIN_DURATION : Nat := 3

def MARKET_EVENT_MAX_DURATION : Nat := 7

/-- The Python dict `EVENT_MULTIPLIERS`, embedded as an association list
(keys `MARKET_EVENT_VIRAL` … `MARKET_EVENT_LOGISTICS_CRISIS`). -/
def EVENT_MULTIPLIERS : List (String × ℚ) :=
  [("viral", 2), ("marketing", 18/10), ("site_down", 3/10), ("logistics_crisis", 5/10)]

def LIFECYCLE_WEIGHTS : List (String × ℚ) :=
  [("Viral", 5), ("Stable", 1), ("Obsolete", 1/10)]

/-! ## Python dict access -/

/-- Python `d[k]` on a dict: `none` is a `KeyError`. -/
def dictGet (d : List (String × ℚ)) (k : String) : Option ℚ :=
  (d.find? (fun p => p.1 == k)).map Prod.snd

/-- Python `d.get(k, default)` on a dict. -/
def dictGetD (d : List (String × ℚ)) (k : String) (default : ℚ) : ℚ :=
  (dictGet d k).getD default

/-! ## Market-event multipliers (C10)

`Command.apply_market_event` (simulate_data.py lines 157-173) and the
class-per-event lookups of `core/simulation/events.py`. -/

/-- Embeds `Command.apply_market_event`: `multiplier * EVENT_MULTIPLIERS.get(market_event, 1.0)`. -/
def apply_market_event (multiplier : ℚ) (market_event : Option String) : ℚ :=
  match market_event with
  | none => multiplier
  | some ev => multiplier * dictGetD EVENT_MULTIPLIERS ev 1

/-- The dict key each event class of `core/simulation/events.py` uses in its
`get_multiplier` body, indexed by the factory key registered in
`MarketEventFactory.__init__` (`"viral" ↦ ViralEvent`, …,
`"logistics" ↦ LogisticsCrisisEvent`). -/
def factoryMultiplierKey (factoryKey : String) : String :=
  if factoryKey == "viral" then "viral"
  else if factoryKey == "marketing" then "marketing"
  else if factoryKey == "site_down" then "site_down"
  else "logistics"

/-- The keys registered by `MarketEventFactory.__init__` (`events.py` lines 66-71). -/
def factoryEventKeys : List String := ["viral", "marketing", "site_down", "logistics"]

/-- The `get_multiplier` body of the event class registered under
`factoryKey`: a strict dict access `EVENT_MULTIPLIERS[...]`. -/
def eventClassGetMultiplier (factoryKey : String) : Option ℚ :=
  dictGet EVENT_MULTIPLIERS (factoryMultiplierKey factoryKey)

/-! ## Product model fields (C6)

`core/models.py` `Product` (lines 29-45) versus the keyword arguments used by
`simulate_data.py` (lines 246-253) and the columns selected by
`DataLoader.load_tables` (`core/data_utils.py`). -/

/-- The fields declared on the `Product` Django model (`core/models.py`). -/
def productModelFields : List String :=
  ["name", "category", "brand", "cost", "suggested_price"]

/-- The keyword arguments passed to `Product(...)` by the simulation command
(`simulate_data.py` lines 246-253). -/
def simulateProductKwargs : List String :=
  ["name", "category", "brand", "cost", "suggested_price", "lifecycle"]

/-- The columns of `core_product` selected by `DataLoader.load_tables`
(`core/data_utils.py`, `queries["products"]`). -/
def loadTablesProductColumns : List String :=
  ["id", "name", "category", "brand", "cost", "suggested_price", "lifecycle"]

/-- Django model construction: every keyword argument must name a declared
field, otherwise `TypeError` is raised. -/
def djangoModelInit (fields kwargs : List String) : Except String Unit :=
  match kwargs.find? (fun k => !fields.contains k) with
  | some k => .error ("TypeError: unexpected keyword argument " ++ k)
  | none => .ok ()

/-- A SQL `SELECT` of the given columns: every selected column (other than the
implicit primary key `id`) must exist on the table. -/
def sqlSelectColumns (tableFields selected : List String) : Except String Unit :=
  match selected.find? (fun c => !(c == "id" || tableFields.contains c)) with
  | some c => .error ("UndefinedColumn: " ++ c)
  | none => .ok ()

/-! ## Unit price of an order item (C5)

`simulate_data.py` lines 435-441:
`price = float(product.suggested_price)`, then with probability `0.002`
(`random.random() < 0.002`) the anomalous value `1.99` is used. -/

/-- The unit price assigned to a generated order item, as a function of the
product's suggested price and the anomaly roll (`random.random()`). -/
def codeUnitPrice (suggestedPrice : ℚ) (anomalyRoll : ℚ) : ℚ :=
  let price := suggestedPrice
  if anomalyRoll < 2/1000 then 199/100 else price

/-! ## Deterministic generator streams

A generator state is a `Nat`; `lcgNext` advances it.  All draws below are
deterministic functions of the state, modelling the seeded Mersenne-twister
streams of `random`, `numpy.random` and `Faker`. -/

def lcgNext (s : Nat) : Nat := (s * 1103515245 + 12345) % 2 ^ 31

/-- A rational in `[0, 1)` read off a stream state. -/
def unitInterval (s : Nat) : ℚ := (s % 1000000 : Nat) / 1000000

/-- Models `random.random()` (also a numpy uniform `[0,1)` draw): advance the
stream and produce a rational in `[0, 1)`. -/
def randUnit (s : Nat) : ℚ × Nat :=
  let s := lcgNext s
  (unitInterval s, s)

/-- Models `random.randint(lo, hi)` (both bounds inclusive). -/
def randIntIncl (lo hi : Nat) (s : Nat) : Nat × Nat :=
  let s := lcgNext s
  (lo + s % (hi + 1 - lo), s)

/-- Models `np.random.uniform(a, b)` (also `random.uniform`). -/
def randUniform (a b : ℚ) (s : Nat) : ℚ × Nat :=
  let s := lcgNext s
  (a + (b - a) * unitInterval s, s)

/-- Models `random.choice(xs)` on a list of strings. -/
def randChoice (xs : List String) (s : Nat) : String × Nat :=
  let s := lcgNext s
  (xs.getD (s % xs.length) "", s)

/-- Models `np.random.poisson(lam)`: a deterministic function of the mean and
the stream state (the exact distribution is irrelevant to the claims). -/
def npPoisson (lam : ℚ) (s : Nat) : Nat × Nat :=
  let s := lcgNext s
  (s % (2 * lam.floor.toNat + 2), s)

/-- Categorical choice by cumulative probabilities: the index of the bucket a
unit draw falls into (models `np.random.choice(..., p=probs)`). -/
def cumPick (u : ℚ) : List ℚ → Nat
  | [] => 0
  | p :: ps => if u < p then 0 else cumPick (u - p) ps + 1

/-! ## Market-event state machine (C3)

`Command.check_market_event` (simulate_data.py lines 125-155).  The mutable
pair `self.market_event` / `self.event_end_date` is the state; the random
draws (`random.random()`, `random.choice(MARKET_EVENTS)`,
`random.randint(MIN, MAX)`) are passed explicitly. -/

structure EventState where
  market_event : Option String
  event_end_date : Option Int
deriving DecidableEq, Repr

/-- The tail of `check_market_event`: attempt a new event with probability
`MARKET_EVENT_PROBABILITY`; on success activate it, on failure clear
`market_event` (the stored end date is left as is, exactly as in the code). -/
def attempt_new_event (st : EventState) (current_date : Int)
    (roll : ℚ) (choiceIdx : Nat) (durationDraw : Nat) : EventState × Option String :=
  if roll < MARKET_EVENT_PROBABILITY then
    let event_type := MARKET_EVENTS.getD (choiceIdx % MARKET_EVENTS.length) ""
    let duration := MARKET_EVENT_MIN_DURATION
      + durationDraw % (MARKET_EVENT_MAX_DURATION + 1 - MARKET_EVENT_MIN_DURATION)
    ({ market_event := some event_type,
       event_end_date := some (current_date + duration) }, some event_type)
  else
    ({ st with market_event := none }, none)

/-- Embeds `Command.check_market_event`: keep a running event strictly before
its end date, otherwise attempt a new one. -/
def check_market_event (st : EventState) (current_date : Int)
    (roll : ℚ) (choiceIdx : Nat) (durationDraw : Nat) : EventState × Option String :=
  match st.market_event, st.event_end_date with
  | some ev, some endDate =>
    if current_date < endDate then (st, some ev)
    else attempt_new_event st current_date roll choiceIdx durationDraw
  | _, _ => attempt_new_event st current_date roll choiceIdx durationDraw

/-! ## Seasonality (C9)

`Command.get_seasonality_multiplier` (simulate_data.py lines 44-104).  The
function reads only `month`, `day` and `weekday()` of the date; each
`np.random.uniform` draw is passed explicitly. -/

structure CalDate where
  month : Nat
  day : Nat
  weekday : Nat
deriving DecidableEq, Repr

structure SeasonalityDraws where
  weekendDraw : ℚ
  blackFridayDraw : ℚ
  cyberMondayDraw : ℚ
  christmasDraw : ℚ
  postChristmasDraw : ℚ
  januaryDraw : ℚ
  anniversaryDraw : ℚ

abbrev isWeekend (d : CalDate) : Prop := 5 ≤ d.weekday

abbrev isBlackFriday (d : CalDate) : Prop :=
  d.month = BLACK_FRIDAY_MONTH ∧ BLACK_FRIDAY_START_DAY ≤ d.day ∧ d.day ≤ BLACK_FRIDAY_END_DAY

abbrev isCyberMonday (d : CalDate) : Prop :=
  d.month = CYBER_MONDAY_MONTH ∧ CYBER_MONDAY_START_DAY ≤ d.day ∧
    d.day ≤ CYBER_MONDAY_END_DAY ∧ d.weekday = 0

abbrev isChristmasPeak (d : CalDate) : Prop :=
  d.month = CHRISTMAS_MONTH ∧ CHRISTMAS_START_DAY ≤ d.day ∧ d.day ≤ CHRISTMAS_END_DAY

abbrev isPostChristmas (d : CalDate) : Prop :=
  d.month = CHRISTMAS_MONTH ∧ POST_CHRISTMAS_START_DAY ≤ d.day

abbrev isJanuarySlump (d : CalDate) : Prop := d.month = JANUARY_MONTH

abbrev isAnniversary (d : CalDate) : Prop := d.month = COMPANY_ANNIVERSARY_MONTH

/-- Embeds `Command.get_seasonality_multiplier`: start at `1.0`, multiply by
the weekend draw on weekends, run the Black-Friday … anniversary `if/elif`
chain, and return `max(m, MIN_SEASONALITY_MULTIPLIER)`. -/
def get_seasonality_multiplier (d : CalDate) (u : SeasonalityDraws) : ℚ :=
  let m : ℚ := 1
  let m := if isWeekend d then m * u.weekendDraw else m
  let m :=
    if isBlackFriday d then m * (u.blackFridayDraw * BLACK_FRIDAY_BASE_MULTIPLIER)
    else if isCyberMonday d then m * u.cyberMondayDraw
    else if isChristmasPeak d then m * u.christmasDraw
    else if isPostChristmas d then m * u.postChristmasDraw
    else if isJanuarySlump d then m * u.januaryDraw
    else if isAnniversary d then m * u.anniversaryDraw
    else m
  max m MIN_SEASONALITY_MULTIPLIER

/-- Spec-shaped weekend factor: the weekend boost, applied multiplicatively
whenever the date is a weekend, independent of the calendar branches. -/
def weekendFactor (d : CalDate) (u : SeasonalityDraws) : ℚ :=
  if isWeekend d then u.weekendDraw else 1

/-- Spec-shaped calendar factor: the factor of the single matching calendar
boost/slump in the fixed first-match-wins order, `1` when none matches. -/
def calendarFactor (d : CalDate) (u : SeasonalityDraws) : ℚ :=
  if isBlackFriday d then u.blackFridayDraw * BLACK_FRIDAY_BASE_MULTIPLIER
  else if isCyberMonday d then u.cyberMondayDraw
  else if isChristmasPeak d then u.christmasDraw
  else if isPostChristmas d then u.postChristmasDraw
  else if isJanuarySlump d then u.januaryDraw
  else if isAnniversary d then u.anniversaryDraw
  else 1

/-- The seasonality multiplier as the spec words it: weekend factor times the
single applicable calendar factor, floored at the configured minimum. -/
def seasonalitySpec (d : CalDate) (u : SeasonalityDraws) : ℚ :=
  max (weekendFactor d u * calendarFactor d u) MIN_SEASONALITY_MULTIPLIER

/-! ## Civil-date arithmetic

Day ordinals relative to 1970-01-01 (proleptic Gregorian), with the standard
days-from-civil / civil-from-days algorithms.  Python's `date.weekday()` is
Monday = 0; 1970-01-01 was a Thursday (weekday 3). -/

def daysFromCivil (y m d : Int) : Int :=
  let y := if m ≤ 2 then y - 1 else y
  let era := (if 0 ≤ y then y else y - 399) / 400
  let yoe := y - era * 400
  let mp := (m + 9) % 12
  let doy := (153 * mp + 2) / 5 + d - 1
  let doe := yoe * 365 + yoe / 4 - yoe / 100 + doy
  era * 146097 + doe - 719468

def civilFromDays (z : Int) : Int × Int × Int :=
  let z := z + 719468
  let era := (if 0 ≤ z then z else z - 146096) / 146097
  let doe := z - era * 146097
  let yoe := (doe - doe / 1460 + doe / 36524 - doe / 146096) / 365
  let y := yoe + era * 400
  let doy := doe - (365 * yoe + yoe / 4 - yoe / 100)
  let mp := (5 * doy + 2) / 153
  let d := doy - (153 * mp + 2) / 5 + 1
  let m := mp + (if mp < 10 then 3 else -9)
  ((if m ≤ 2 then y + 1 else y), m, d)

def weekdayFromDays (z : Int) : Nat := ((z + 3) % 7).toNat

/-- The month/day/weekday view of a day ordinal, as read by
`get_seasonality_multiplier` off a Python `date`. -/
def calDateOfOrdinal (z : Int) : CalDate :=
  let c := civilFromDays z
  { month := c.2.1.toNat, day := c.2.2.toNat, weekday := weekdayFromDays z }

/-! ## Remaining seasonality constants (`core/simulation_constants.py`) -/

def BLACK_FRIDAY_VARIANCE_MIN : ℚ := 7/10

def BLACK_FRIDAY_VARIANCE_MAX : ℚ := 12/10

def CYBER_MONDAY_BOOST_MIN : ℚ := 2

def CYBER_MONDAY_BOOST_MAX : ℚ := 7/2

def CHRISTMAS_BOOST_MIN : ℚ := 3/2

def CHRISTMAS_BOOST_MAX : ℚ := 5/2

def POST_CHRISTMAS_REDUCTION_MIN : ℚ := 1/10

def POST_CHRISTMAS_REDUCTION_MAX : ℚ := 4/10

def JANUARY_REDUCTION_MIN : ℚ := 4/10

def JANUARY_REDUCTION_MAX : ℚ := 8/10

def COMPANY_ANNIVERSARY_BOOST_MIN : ℚ := 12/10

def COMPANY_ANNIVERSARY_BOOST_MAX : ℚ := 18/10

/-! ## The generation pipeline of `Command.handle` (C2, C4)

The three seeded generators (`random`, `np.random`, `Faker`) are three
deterministic streams threaded through the pipeline in source order. -/

structure Streams where
  py : Nat
  np : Nat
  fk : Nat
deriving DecidableEq, Repr

structure SimOptions where
  years : Nat
  customers_per_year : Nat
  products_per_year : Nat
deriving DecidableEq, Repr

/-- A calendar date `(year, month, day)`; `date.today()` is passed to the run
as an explicit input of this shape. -/
structure Civil where
  year : Int
  month : Int
  day : Int
deriving DecidableEq, Repr

structure ProductRec where
  name : String
  category : String
  brand : String
  cost : ℚ
  suggested_price : ℚ
  lifecycle : String
deriving DecidableEq, Repr

structure CustomerRec where
  name : String
  email : String
  segment : String
  city : String
  state : String
  region : String
  created_at : Int
  persona : String
  max_purchases : Nat
  purchase_count : Nat
deriving DecidableEq, Repr

structure OrderRec where
  customerIdx : Nat
  order_date : Int
  delivery_date : Int
  status : String
  channel : String
deriving DecidableEq, Repr

structure ItemRec where
  orderIdx : Nat
  productIdx : Nat
  quantity : Nat
  unit_price : ℚ
  unit_cost : ℚ
  discount_applied : ℚ
deriving DecidableEq, Repr

def emptyProduct : ProductRec := ⟨"", "", "", 0, 0, ""⟩

def emptyCustomer : CustomerRec := ⟨"", "", "", "", "", "", 0, "", 0, 0⟩

/-- Python `round(x, 2)`, modelled as truncation to two decimals. -/
def roundQ2 (q : ℚ) : ℚ := (q * 100).floor / 100

/-- Faker value factories, modelled as string draws off the Faker stream. -/
def fakeString (tag : String) (s : Nat) : String × Nat :=
  let s := lcgNext s
  (tag ++ toString (s % 100000), s)

/-- Models `fake.date_between(lo, hi)` on day ordinals (both ends inclusive). -/
def fakeDateBetween (lo hi : Int) (s : Nat) : Int × Nat :=
  let s := lcgNext s
  (lo + (s : Int) % (hi - lo + 1), s)

/-- One iteration of the per-year product loop (simulate_data.py lines
232-259): category, category-dependent price range, lifecycle from the fixed
categorical distribution, Faker name/brand, cost at 60% of price. -/
def genProduct (st : Streams) : ProductRec × Streams :=
  let (cat, py) := randChoice CATEGORIES st.py
  let (price, py) :=
    if cat == "Eletrônicos" then randUniform 500 5000 py
    else if cat == "Roupas" then randUniform 40 300 py
    else randUniform 50 1000 py
  let (lcRoll, np) := randUnit st.np
  let lifecycle := ["Stable", "Viral", "Obsolete"].getD
    (cumPick lcRoll [7/10, 2/10, 1/10]) "Obsolete"
  let (w, fk) := fakeString "word" st.fk
  let (c, fk) := fakeString "color" fk
  let (b, fk) := fakeString "company" fk
  ({ name := cat ++ " - " ++ w ++ " " ++ c,
     category := cat, brand := b,
     cost := roundQ2 (price * (6/10)), suggested_price := roundQ2 price,
     lifecycle := lifecycle },
   { py := py, np := np, fk := fk })

/-- One iteration of the per-year customer loop (simulate_data.py lines
267-303): enrollment date within the year, persona from the fixed
categorical distribution, Faker identity fields, persona-dependent purchase
cap. -/
def genCustomer (yearStart yearEnd : Int) (st : Streams) : CustomerRec × Streams :=
  let (created, fk) := fakeDateBetween yearStart yearEnd st.fk
  let (perRoll, np) := randUnit st.np
  let persona := ["OneTime", "Leal", "VIP"].getD
    (cumPick perRoll [70/100, 20/100, 10/100]) "VIP"
  let (nm, fk) := fakeString "name" fk
  let (em, fk) := fakeString "email" fk
  let (seg, py) := randChoice SEGMENTS st.py
  let (ct, fk) := fakeString "city" fk
  let (uf, fk) := fakeString "uf" fk
  let (rg, py) := randChoice REGIONS py
  let (cap, py) :=
    if persona == "OneTime" then randIntIncl 30 100 py
    else if persona == "Leal" then randIntIncl 100 300 py
    else randIntIncl 500 1500 py
  ({ name := nm, email := em, segment := seg, city := ct, state := uf,
     region := rg, created_at := created, persona := persona,
     max_purchases := cap, purchase_count := 0 },
   { py := py, np := np, fk := fk })

def genProducts : Nat → Streams → List ProductRec × Streams
  | 0, st => ([], st)
  | k + 1, st =>
    let (p, st) := genProduct st
    let (ps, st) := genProducts k st
    (p :: ps, st)

def genCustomers (yearStart yearEnd : Int) : Nat → Streams → List CustomerRec × Streams
  | 0, st => ([], st)
  | k + 1, st =>
    let (c, st) := genCustomer yearStart yearEnd st
    let (cs, st) := genCustomers yearStart yearEnd k st
    (c :: cs, st)

/-- One year of organic growth (simulate_data.py lines 225-303): product and
customer counts with the ±20% / ±30% variation, then the per-entity loops. -/
def genYearStep (opts : SimOptions) (year : Int) (todayOrd : Int) (st : Streams) :
    List ProductRec × List CustomerRec × Streams :=
  let (u1, py) := randUniform (8/10) (12/10) st.py
  let numProducts := ((opts.products_per_year : ℚ) * u1).floor.toNat
  let (prods, st) := genProducts numProducts { st with py := py }
  let (u2, py) := randUniform (7/10) (13/10) st.py
  let numCustomers := ((opts.customers_per_year : ℚ) * u2).floor.toNat
  let yearStart := daysFromCivil year 1 1
  let yearEnd := min (daysFromCivil year 12 31) todayOrd
  let (custs, st) := genCustomers yearStart yearEnd numCustomers { st with py := py }
  (prods, custs, st)

def genPopulationAux (opts : SimOptions) (startYear : Int) (todayOrd : Int) :
    List Nat → Streams → List ProductRec × List CustomerRec × Streams
  | [], st => ([], [], st)
  | o :: os, st =>
    let (ps, cs, st) := genYearStep opts (startYear + o) todayOrd st
    let (ps2, cs2, st) := genPopulationAux opts startYear todayOrd os st
    (ps ++ ps2, cs ++ cs2, st)

/-- The organic-growth population build (one `genYearStep` per year offset). -/
def genPopulation (opts : SimOptions) (startYear : Int) (todayOrd : Int)
    (st : Streams) : List ProductRec × List CustomerRec × Streams :=
  genPopulationAux opts startYear todayOrd (List.range opts.years) st

/-! ## The daily sales engine of `Command.handle` (C2, C4) -/

/-- Embeds `Command.apply_cagr`.  The real-valued growth
`(1 + rate) ^ (days / 365.25)` is modelled by a rational per-whole-year
power of `1 + CAGR_ANNUAL_RATE`; only determinism and the multiplicative
combination matter for the claims. -/
def apply_cagr (base_volume : ℚ) (start_d current_d : Int) : ℚ :=
  let days_elapsed := current_d - start_d
  let years_elapsed := days_elapsed / 365
  base_volume * (1 + CAGR_ANNUAL_RATE) ^ years_elapsed.toNat

/-- The seasonality computation with its stream draws, consumed exactly when
the corresponding branch of `get_seasonality_multiplier` is taken. -/
def seasonalityStep (d : CalDate) (np : Nat) : ℚ × Nat :=
  let (w, np) :=
    if isWeekend d then randUniform WEEKEND_BOOST_MIN WEEKEND_BOOST_MAX np else (1, np)
  let (b, np) :=
    if isBlackFriday d then randUniform BLACK_FRIDAY_VARIANCE_MIN BLACK_FRIDAY_VARIANCE_MAX np
    else if isCyberMonday d then randUniform CYBER_MONDAY_BOOST_MIN CYBER_MONDAY_BOOST_MAX np
    else if isChristmasPeak d then randUniform CHRISTMAS_BOOST_MIN CHRISTMAS_BOOST_MAX np
    else if isPostChristmas d then
      randUniform POST_CHRISTMAS_REDUCTION_MIN POST_CHRISTMAS_REDUCTION_MAX np
    else if isJanuarySlump d then randUniform JANUARY_REDUCTION_MIN JANUARY_REDUCTION_MAX np
    else if isAnniversary d then
      randUniform COMPANY_ANNIVERSARY_BOOST_MIN COMPANY_ANNIVERSARY_BOOST_MAX np
    else (1, np)
  (get_seasonality_multiplier d ⟨w, b, b, b, b, b, b⟩, np)

/-- The `attempt_new_event` transition with its `random` stream draws
(the choice and duration draws are consumed only when the roll succeeds). -/
def attempt_new_event_step (evSt : EventState) (cur : Int) (py : Nat) :
    (EventState × Option String) × Nat :=
  let (roll, py) := randUnit py
  if roll < MARKET_EVENT_PROBABILITY then
    let pyChoice := lcgNext py
    let pyDur := lcgNext pyChoice
    (attempt_new_event evSt cur roll pyChoice pyDur, pyDur)
  else
    (attempt_new_event evSt cur roll 0 0, py)

/-- Embeds `Command.check_market_event` with its stream threading (no draw is
consumed while an active event persists). -/
def check_market_event_step (evSt : EventState) (cur : Int) (py : Nat) :
    (EventState × Option String) × Nat :=
  match evSt.market_event, evSt.event_end_date with
  | some ev, some endDate =>
    if cur < endDate then ((evSt, some ev), py)
    else attempt_new_event_step evSt cur py
  | _, _ => attempt_new_event_step evSt cur py

/-- The persona weight of the customer-selection loop (simulate_data.py lines
356-366): VIP 15, Leal 5, otherwise 1. -/
def personaWeight (persona : String) : ℚ :=
  if persona == "VIP" then 15 else if persona == "Leal" then 5 else 1

/-- The eligible-customer selection (simulate_data.py lines 347-352): indices
whose customer is enrolled by the current date and under the purchase cap. -/
def validIndices (custs : List CustomerRec) (cur : Int) : List Nat :=
  (List.range custs.length).filter (fun idx =>
    match custs.get? idx with
    | some m => decide (m.created_at ≤ cur) && decide (m.purchase_count < m.max_purchases)
    | none => false)

/-- One weighted pick from the pool of eligible indices (models
`np.random.choice(..., p=probs)`): the unit draw is placed in the cumulative
weight profile. -/
def pickWeighted (custs : List CustomerRec) (pool : List Nat) (u : ℚ) : Nat :=
  let ws := pool.map (fun idx => personaWeight ((custs.get? idx).elim "" (·.persona)))
  let raw := cumPick (u * ws.sum) ws
  pool.getD (min raw (pool.length - 1)) 0

/-- Models `np.random.choice(valid, size=k, p=probs, replace=False)`:
repeated weighted picks, each removing the chosen index from the pool. -/
def sampleWithoutReplacement (custs : List CustomerRec) :
    Nat → List Nat → Nat → List Nat × Nat
  | 0, _, s => ([], s)
  | _ + 1, [], s => ([], s)
  | k + 1, pool, s =>
    let (u, s) := randUnit s
    let chosen := pickWeighted custs pool u
    let (rest, s) := sampleWithoutReplacement custs k (pool.erase chosen) s
    (chosen :: rest, s)

/-- The order-status draw, `np.random.choice(STATUS, p=[0.75, 0.1, 0.1, 0.05])`. -/
def orderStatusOfRoll (r : ℚ) : String :=
  STATUS.getD (cumPick r [75/100, 10/100, 10/100, 5/100]) "Returned"

/-- The per-item loop (simulate_data.py lines 420-454): lifecycle-weighted
product choice, quantity (bulk-anomaly override), unit price with the
price-error anomaly, unit cost copied from the product, discount from the
fixed set `[0, 0, 5, 10]`. -/
def genItems (products : List ProductRec) (orderIdx : Nat) (bulkQty : Option Nat) :
    Nat → Streams → List ItemRec × Streams
  | 0, st => ([], st)
  | k + 1, st =>
    let ws := products.map (fun p => dictGetD LIFECYCLE_WEIGHTS p.lifecycle 1)
    let (u, np) := randUnit st.np
    let prodIdx := min (cumPick (u * ws.sum) ws) (products.length - 1)
    let p := products.getD prodIdx emptyProduct
    let (qty, py) :=
      match bulkQty with
      | some b => (b, st.py)
      | none => randIntIncl 1 3 st.py
    let (priceRoll, py) := randUnit py
    let price := codeUnitPrice p.suggested_price priceRoll
    let discS := lcgNext py
    let discount : ℚ := ([0, 0, 5, 10] : List ℚ).getD (discS % 4) 0
    let item : ItemRec :=
      { orderIdx := orderIdx, productIdx := prodIdx, quantity := qty,
        unit_price := price, unit_cost := p.cost, discount_applied := discount }
    let (rest, st) := genItems products orderIdx bulkQty k { py := discS, np := np, fk := st.fk }
    (item :: rest, st)

/-- One buyer of the per-day loop (simulate_data.py lines 378-454): bump the
purchase counter, draw status / delivery lead time (with the logistic-delay
anomaly) / channel, then the basket with the bulk-purchase anomaly.  Returns
(updated customers, order, items, streams). -/
def processBuyer (products : List ProductRec) (custs : List CustomerRec)
    (cur : Int) (orderIdx : Nat) (idx : Nat) (st : Streams) :
    List CustomerRec × OrderRec × List ItemRec × Streams :=
  let m := custs.getD idx emptyCustomer
  let custs2 := custs.set idx { m with purchase_count := m.purchase_count + 1 }
  let rStatus := randUnit st.np
  let status := orderStatusOfRoll rStatus.1
  let rDays := randIntIncl 2 10 st.py
  let rDelay := randUnit rDays.2
  let rDelivery := if rDelay.1 < 5/1000 then randIntIncl 30 90 rDelay.2 else (rDays.1, rDelay.2)
  let rChannel := randChoice CHANNELS rDelivery.2
  let order : OrderRec :=
    { customerIdx := idx, order_date := cur,
      delivery_date := cur + (rDelivery.1 : Int), status := status, channel := rChannel.1 }
  let rItems := if m.persona == "VIP" then randIntIncl 2 6 rChannel.2
                else randIntIncl 1 3 rChannel.2
  let rBulk := randUnit rItems.2
  let rBasket : Nat × Option Nat × Nat :=
    if rBulk.1 < 2/1000 then
      let rq := randIntIncl 20 50 rBulk.2
      (1, some rq.1, rq.2)
    else (rItems.1, none, rBulk.2)
  let rGen := genItems products orderIdx rBasket.2.1 rBasket.1
    { py := rBasket.2.2, np := rStatus.2, fk := st.fk }
  (custs2, order, rGen.1, rGen.2)

def processBuyers (products : List ProductRec) (cur : Int) :
    List Nat → List CustomerRec → Nat → Streams →
    List CustomerRec × List OrderRec × List ItemRec × Streams
  | [], custs, _, st => (custs, [], [], st)
  | idx :: rest, custs, orderIdx, st =>
    let r := processBuyer products custs cur orderIdx idx st
    let r2 := processBuyers products cur rest r.1 (orderIdx + 1) r.2.2.2
    (r2.1, r.2.1 :: r2.2.1, r.2.2.1 ++ r2.2.2.1, r2.2.2.2)

/-- The selling part of one day (reached when the Poisson volume is
positive): eligible-customer selection and the per-buyer generation. -/
def dayStepSell (products : List ProductRec) (custs : List CustomerRec)
    (cur : Int) (dailyVolume : Nat) (evSt : EventState) (st : Streams)
    (baseOrders : Nat) :
    List CustomerRec × EventState × Streams × List OrderRec × List ItemRec :=
  let valid := validIndices custs cur
  if valid.isEmpty then (custs, evSt, st, [], [])
  else
    let rSample := sampleWithoutReplacement custs (min dailyVolume valid.length) valid st.np
    let rBuy := processBuyers products cur rSample.1 custs baseOrders
      { st with np := rSample.2 }
    (rBuy.1, evSt, rBuy.2.2.2, rBuy.2.1, rBuy.2.2.1)

/-- One day of the sales engine (simulate_data.py lines 323-457):
seasonality, CAGR, market event, Poisson volume, then `dayStepSell` when the
volume is positive.  Returns (customers, event state, streams, orders,
items). -/
def dayStep (products : List ProductRec) (custs : List CustomerRec)
    (startOrd cur : Int) (evSt : EventState) (st : Streams) (baseOrders : Nat) :
    List CustomerRec × EventState × Streams × List OrderRec × List ItemRec :=
  let cd := calDateOfOrdinal cur
  let rSeas := seasonalityStep cd st.np
  let rEv := check_market_event_step evSt cur st.py
  let multiplier :=
    apply_market_event (rSeas.1 * (apply_cagr 30 startOrd cur / 30)) rEv.1.2
  let rVol := npPoisson (multiplier * 30) rSeas.2
  let st2 : Streams := { py := rEv.2, np := rVol.2, fk := st.fk }
  if rVol.1 > 0 then dayStepSell products custs cur rVol.1 rEv.1.1 st2 baseOrders
  else (custs, rEv.1.1, st2, [], [])

def runDays (products : List ProductRec) (startOrd todayOrd : Int) :
    Nat → Int → List CustomerRec → EventState → Streams →
    List OrderRec → List ItemRec →
    List CustomerRec × List OrderRec × List ItemRec × EventState × Streams
  | 0, _, custs, ev, st, orders, items => (custs, orders, items, ev, st)
  | fuel + 1, cur, custs, ev, st, orders, items =>
    if todayOrd < cur then (custs, orders, items, ev, st)
    else
      let r := dayStep products custs startOrd cur ev st orders.length
      runDays products startOrd todayOrd fuel (cur + 1) r.1 r.2.1 r.2.2.1
        (orders ++ r.2.2.2.1) (items ++ r.2.2.2.2)

structure SimResult where
  products : List ProductRec
  customers : List CustomerRec
  orders : List OrderRec
  order_items : List ItemRec
deriving DecidableEq, Repr

/-- Embeds the generation pipeline of `Command.handle` (simulate_data.py
lines 188-457): seed the three generator streams with the run seed (the
source passes the constant `42` to `Faker.seed`, `np.random.seed` and
`random.seed`), build the population year by year, then run the daily sales
engine from January 1st of `today.year - years` through `today`.  The run
calendar date (`date.today()` in the source) is an explicit input. -/
def simulateRun (seed : Nat) (opts : SimOptions) (today : Civil) : SimResult :=
  let st : Streams := { py := seed, np := seed, fk := seed }
  let startYear := today.year - opts.years
  let startOrd := daysFromCivil startYear 1 1
  let todayOrd := daysFromCivil today.year today.month today.day
  let pop := genPopulation opts startYear todayOrd st
  let fuel := (todayOrd - startOrd).toNat + 1
  let run := runDays pop.1 startOrd todayOrd fuel startOrd pop.2.1 ⟨none, none⟩ pop.2.2 [] []
  { products := pop.1, customers := run.1, orders := run.2.1, order_items := run.2.2.1 }

/-! ## The aggregation publish step (C7)

`Command.handle` lines 488-573: the Redis pipeline is built from the four
aggregations and `pipe.execute()` is called.  There is no `try/except`
anywhere in `handle`, and `handle` is decorated `@transaction.atomic`, so an
exception raised by `execute()` propagates and aborts the run. -/

def REDIS_TTL_SECONDS : Nat := 86400

inductive RedisCmd where
  | setRat (key : String) (value : ℚ) (ttl : Nat)
  | setNat (key : String) (value : Nat) (ttl : Nat)
  | delKey (key : String)
  | zadd (key member : String) (score : Nat)
  | expireKey (key : String) (ttl : Nat)
deriving DecidableEq, Repr

/-- The pipeline built by lines 540-563 (day keys are rendered from the day
ordinal). -/
def buildPipeline (byDay : List (Int × ℚ × Nat)) (topProds : List (String × Nat))
    (regional : List (String × ℚ)) (activeToday : Nat) (todayKey : String) :
    List RedisCmd :=
  (byDay.flatMap (fun r =>
    [RedisCmd.setRat ("faturamento:" ++ toString r.1) r.2.1 REDIS_TTL_SECONDS,
     RedisCmd.setNat ("pedidos_count:" ++ toString r.1) r.2.2 REDIS_TTL_SECONDS]))
  ++ [RedisCmd.delKey "top_produtos"]
  ++ (topProds.map (fun p => RedisCmd.zadd "top_produtos" p.1 p.2))
  ++ [RedisCmd.expireKey "top_produtos" REDIS_TTL_SECONDS]
  ++ ((regional.filter (fun r => r.1 != "")).map (fun r =>
    RedisCmd.setRat ("vendas_regiao:" ++ r.1) r.2 REDIS_TTL_SECONDS))
  ++ [RedisCmd.setNat ("clientes_ativos:" ++ todayKey) activeToday REDIS_TTL_SECONDS]

/-- A Redis pipeline `execute()`: raises `ConnectionError` when the server is
unreachable (`cacheUp = false`). -/
def pipelineExecute (cacheUp : Bool) (cmds : List RedisCmd) :
    Except String (List RedisCmd) :=
  if cacheUp then .ok cmds else .error "redis.exceptions.ConnectionError"

/-- The publish tail of `Command.handle` (lines 540-573): the main pipeline
`execute()`, then the duplicated trailing `pipe.set(clientes_ativos…)` and
second `execute()`; no exception handler wraps either call. -/
def publishAggregations (cacheUp : Bool) (byDay : List (Int × ℚ × Nat))
    (topProds : List (String × Nat)) (regional : List (String × ℚ))
    (activeToday : Nat) (todayKey : String) : Except String Unit :=
  match pipelineExecute cacheUp
      (buildPipeline byDay topProds regional activeToday todayKey) with
  | .error e => .error e
  | .ok _ =>
    match pipelineExecute cacheUp
        [RedisCmd.setNat ("clientes_ativos:" ++ todayKey) activeToday REDIS_TTL_SECONDS] with
    | .error e => .error e
    | .ok _ => .ok ()

/-- The user-visible outcome of the run around the publish step: on success
`handle` prints the success message; an unhandled cache error propagates out
of `handle` and, because of `@transaction.atomic`, the whole run fails and
the database transaction is rolled back. -/
def handlePublishOutcome (cacheUp : Bool) (byDay : List (Int × ℚ × Nat))
    (topProds : List (String × Nat)) (regional : List (String × ℚ))
    (activeToday : Nat) (todayKey : String) : Except String String :=
  match publishAggregations cacheUp byDay topProds regional activeToday todayKey with
  | .error e => .error e
  | .ok _ => .ok "Agregações atualizadas no Redis."

/-! ## Published aggregations (C1)

The four aggregation queries of `Command.handle` (simulate_data.py lines
497-538).  A `DbItem` is one joined row of the `OrderItem … select_related
("order", "order__customer", "product")` result set. -/

structure DbItem where
  orderId : Nat
  orderStatus : String
  orderDate : Int
  customerId : Nat
  customerRegion : String
  productName : String
  quantity : Nat
  unitPrice : ℚ
deriving DecidableEq, Repr

/-- The ORM filter `order__status="Completed"`. -/
def isCompletedRow (it : DbItem) : Bool := it.orderStatus == "Completed"

/-- Embeds `aggregated_by_day`: filter to completed orders, group by order
date, sum `unit_price * quantity` and count distinct order ids. -/
def aggregated_by_day (db : List DbItem) : List (Int × ℚ × Nat) :=
  let rows := db.filter isCompletedRow
  ((rows.map (·.orderDate)).dedup).map (fun d =>
    let dayRows := rows.filter (fun it => it.orderDate == d)
    (d, (dayRows.map (fun it => it.unitPrice * (it.quantity : ℚ))).sum,
        ((dayRows.map (·.orderId)).dedup).length))

/-- Insertion step for the `order_by("-total_qty")` descending sort. -/
def insertByQty (x : String × Nat) : List (String × Nat) → List (String × Nat)
  | [] => [x]
  | y :: ys => if y.2 ≤ x.2 then x :: y :: ys else y :: insertByQty x ys

def sortByQtyDesc (l : List (String × Nat)) : List (String × Nat) :=
  l.foldr insertByQty []

/-- Embeds `vendas_por_produto`: filter to completed orders, group by product
name, sum quantities, order by total quantity descending. -/
def vendas_por_produto (db : List DbItem) : List (String × Nat) :=
  let rows := db.filter isCompletedRow
  sortByQtyDesc (((rows.map (·.productName)).dedup).map (fun n =>
    (n, ((rows.filter (fun it => it.productName == n)).map (·.quantity)).sum)))

/-- Embeds `vendas_por_regiao`: filter to completed orders, group by the
customer's region, sum `unit_price * quantity`. -/
def vendas_por_regiao (db : List DbItem) : List (String × ℚ) :=
  let rows := db.filter isCompletedRow
  ((rows.map (·.customerRegion)).dedup).map (fun r =>
    (r, ((rows.filter (fun it => it.customerRegion == r)).map
          (fun it => it.unitPrice * (it.quantity : ℚ))).sum))

/-- Embeds `clientes_ativos_hoje`: distinct customers of completed orders
dated today (`order_date ≥ today` and `< today + 1 day`). -/
def clientes_ativos_hoje (db : List DbItem) (today : Int) : Nat :=
  (((db.filter (fun it => isCompletedRow it
      && decide (today ≤ it.orderDate) && decide (it.orderDate < today + 1))).map
        (·.customerId)).dedup).length

/-! ## Regional sales publish and read (C8)

The publish loop of `Command.handle` (simulate_data.py lines 556-560) and
`RedisClient.get_regional_sales` (`core/data_utils.py`).  The Redis string
keyspace is an association list; the constant `vendas_regiao:` key prefix is
dropped, so keys are region names. -/

def redisSet (store : List (String × ℚ)) (k : String) (v : ℚ) : List (String × ℚ) :=
  (k, v) :: store.filter (fun p => p.1 != k)

def redisGet (store : List (String × ℚ)) (k : String) : Option ℚ :=
  (store.find? (fun p => p.1 == k)).map Prod.snd

/-- The publish loop: one `pipe.set` per row of the regional aggregation,
skipped when the region value is falsy (`if regiao:`). -/
def publishRegionalSales (agg : List (String × ℚ))
    (store : List (String × ℚ)) : List (String × ℚ) :=
  agg.foldl (fun st row => if row.1 != "" then redisSet st row.1 row.2 else st) store

/-- The region catalog hard-coded in `RedisClient.get_regional_sales`. -/
def dashboardRegions : List String := ["Sudeste", "Sul", "Nordeste", "Centro-Oeste", "Norte"]

/-- Embeds `RedisClient.get_regional_sales`: for each catalog region read the
key and report `0.0` when the value is absent/falsy. -/
def get_regional_sales (store : List (String × ℚ)) : List (String × ℚ) :=
  dashboardRegions.map (fun r =>
    (r, match redisGet store r with
        | some v => v
        | none => 0))

/-! ## Helper lemmas -/

theorem filter_of_filter_imp {α : Type} (p q : α → Bool) (l : List α)
    (h : ∀ a, q a = true → p a = true) : (l.filter p).filter q = l.filter q := by
  induction l with
  | nil => rfl
  | cons a l ih =>
    by_cases hp : p a
    · simp [List.filter_cons, hp, ih]
    · have hq : q a = false := by
        cases hqa : q a
        · rfl
        · exact absurd (h a hqa) (by simp [hp])
      simp [List.filter_cons, hp, hq, ih]

theorem filter_self_filter {α : Type} (p : α → Bool) (l : List α) :
    (l.filter p).filter p = l.filter p :=
  filter_of_filter_imp p p l (fun _ h => h)

theorem redisGet_set_ne (store : List (String × ℚ)) (k r : String) (v : ℚ)
    (hkr : k ≠ r) (h : redisGet store r = none) :
    redisGet (redisSet store k v) r = none := by
  simp only [redisGet, Option.map_eq_none'] at h ⊢
  rw [List.find?_eq_none] at h ⊢
  rintro ⟨k', v'⟩ hmem
  simp only [redisSet, List.mem_cons, List.mem_filter] at hmem
  rcases hmem with heq | ⟨hmem, _⟩
  · simp only [Prod.mk.injEq] at heq
    simp [heq.1, hkr]
  · exact h _ hmem

theorem redisGet_publish_of_not_mem (agg : List (String × ℚ)) (r : String)
    (hagg : ∀ p ∈ agg, p.1 ≠ r) :
    ∀ store : List (String × ℚ), redisGet store r = none →
      redisGet (publishRegionalSales agg store) r = none := by
  induction agg with
  | nil => intro store hstore; exact hstore
  | cons a l ih =>
    intro store hstore
    have ha : a.1 ≠ r := hagg a (List.mem_cons_self a l)
    have hl : ∀ p ∈ l, p.1 ≠ r := fun p hp => hagg p (List.mem_cons_of_mem a hp)
    show redisGet (publishRegionalSales l _) r = none
    refine ih hl _ ?_
    by_cases hkey : a.1 != ""
    · simp only [publishRegionalSales, List.foldl_cons, hkey, if_pos]
      exact redisGet_set_ne store a.1 r a.2 ha hstore
    · simp only [publishRegionalSales, List.foldl_cons, hkey, if_neg]
      exact hstore

/-! ## Claim theorems (C1, C3, C5, C6, C8, C9, C10) -/

/-- **C1**: every published derived metric (per-day revenue and order count,
top-product quantities, per-region revenue, distinct active customers today)
is unchanged when all non-Completed rows are removed from the database, so
only orders with status `Completed` contribute and no Pending/Cancelled/
Returned order ever contributes to any published value. -/
theorem completed_filter_invariant (db : List DbItem) (today : Int) :
    aggregated_by_day db = aggregated_by_day (db.filter isCompletedRow)
    ∧ vendas_por_produto db = vendas_por_produto (db.filter isCompletedRow)
    ∧ vendas_por_regiao db = vendas_por_regiao (db.filter isCompletedRow)
    ∧ clientes_ativos_hoje db today = clientes_ativos_hoje (db.filter isCompletedRow) today := by
  refine ⟨?_, ?_, ?_, ?_⟩
  · simp only [aggregated_by_day, filter_self_filter]
  · simp only [vendas_por_produto, filter_self_filter]
  · simp only [vendas_por_regiao, filter_self_filter]
  · simp only [clientes_ativos_hoje]
    rw [filter_of_filter_imp]
    intro a h
    simp only [Bool.and_eq_true] at h
    exact h.1.1

/-- **C5** (counterexample): the unit price of a generated order item is
never a perturbation of the suggested price — whenever the anomaly roll does
not fire, the price equals the suggested price exactly, for every possible
draw; the only other possible value is the anomalous `1.99`. -/
theorem unit_price_never_perturbed :
    codeUnitPrice 100 (1/2) = 100
    ∧ codeUnitPrice 100 0 = 199/100
    ∧ ¬ ∃ roll : ℚ, 2/1000 ≤ roll ∧ codeUnitPrice 100 roll ≠ 100 := by
  refine ⟨by norm_num [codeUnitPrice], by norm_num [codeUnitPrice], ?_⟩
  rintro ⟨r, hr, hne⟩
  exact hne (by simp [codeUnitPrice, not_lt.mpr hr])

/-- **C5** (amended): the unit price equals the product's suggested price
exactly (no random perturbation is applied), except with the small fixed
probability `0.002` where it is the anomalously low price-error value `1.99`. -/
theorem unit_price_exact_or_error (suggested roll : ℚ) :
    (2/1000 ≤ roll → codeUnitPrice suggested roll = suggested)
    ∧ (roll < 2/1000 → codeUnitPrice suggested roll = 199/100) := by
  constructor
  · intro h
    simp [codeUnitPrice, not_lt.mpr h]
  · intro h
    simp [codeUnitPrice, h]

theorem unit_price_exact_or_error_witness :
    ((2/1000 : ℚ) ≤ 1 ∧ codeUnitPrice 100 1 = 100)
    ∧ ((0 : ℚ) < 2/1000 ∧ codeUnitPrice 100 0 = 199/100) :=
  ⟨⟨by norm_num, (unit_price_exact_or_error 100 1).1 (by norm_num)⟩,
   ⟨by norm_num, (unit_price_exact_or_error 100 0).2 (by norm_num)⟩⟩

/-- **C6** (code evaluated at the failing input): the simulation command and
the dashboard loader both use a `lifecycle` product field/column, but the
`Product` model of `core/models.py` declares no such field, so constructing
`Product(..., lifecycle=...)` raises `TypeError` and selecting `lifecycle`
from `core_product` fails. -/
theorem product_lifecycle_field_missing :
    ("lifecycle" ∈ simulateProductKwargs)
    ∧ ("lifecycle" ∈ loadTablesProductColumns)
    ∧ ("lifecycle" ∉ productModelFields)
    ∧ djangoModelInit productModelFields simulateProductKwargs =
        .error "TypeError: unexpected keyword argument lifecycle"
    ∧ sqlSelectColumns productModelFields loadTablesProductColumns =
        .error "UndefinedColumn: lifecycle" := by
  refine ⟨by decide, by decide, by decide, by rfl, by rfl⟩

/-- **C10** (code evaluated at the failing input): the logistics-crisis event
class looks its multiplier up under the key `"logistics"`, which is not a key
of `EVENT_MULTIPLIERS` (the configured key is `"logistics_crisis"`), so the
lookup raises `KeyError` instead of yielding the configured multiplier `0.5`;
the three other event classes succeed, as does the command's
`apply_market_event` path for all four catalog kinds. -/
theorem logistics_multiplier_lookup_raises :
    ("logistics" ∈ factoryEventKeys)
    ∧ eventClassGetMultiplier "logistics" = none
    ∧ dictGet EVENT_MULTIPLIERS "logistics_crisis" = some (5/10)
    ∧ eventClassGetMultiplier "viral" = some 2
    ∧ eventClassGetMultiplier "marketing" = some (18/10)
    ∧ eventClassGetMultiplier "site_down" = some (3/10)
    ∧ apply_market_event 1 (some "viral") = 2
    ∧ apply_market_event 1 (some "marketing") = 18/10
    ∧ apply_market_event 1 (some "site_down") = 3/10
    ∧ apply_market_event 1 (some "logistics_crisis") = 5/10 := by
  refine ⟨by decide, by rfl, by rfl, by rfl, by rfl, by rfl,
    by norm_num [apply_market_event,
      show dictGetD EVENT_MULTIPLIERS "viral" 1 = 2 from rfl],
    by norm_num [apply_market_event,
      show dictGetD EVENT_MULTIPLIERS "marketing" 1 = 18/10 from rfl],
    by norm_num [apply_market_event,
      show dictGetD EVENT_MULTIPLIERS "site_down" 1 = 3/10 from rfl],
    by norm_num [apply_market_event,
      show dictGetD EVENT_MULTIPLIERS "logistics_crisis" 1 = 5/10 from rfl]⟩

/-- **C8**: after publishing the per-region aggregation into an empty cache,
the regional-sales read reports a value for every region of the fixed
catalog, and a region with no completed-order sales (absent from the
aggregation) reports the value zero rather than being absent. -/
theorem regional_sales_zero_not_absent (agg : List (String × ℚ)) (r : String)
    (hr : r ∈ dashboardRegions) (hnone : ∀ p ∈ agg, p.1 ≠ r) :
    ((get_regional_sales (publishRegionalSales agg [])).map Prod.fst = dashboardRegions)
    ∧ (r, 0) ∈ get_regional_sales (publishRegionalSales agg []) := by
  constructor
  · simp [get_regional_sales, List.map_map, Function.comp_def]
  · have hget : redisGet (publishRegionalSales agg []) r = none :=
      redisGet_publish_of_not_mem agg r hnone [] rfl
    refine List.mem_map.mpr ⟨r, hr, ?_⟩
    simp [hget]

theorem regional_sales_zero_not_absent_witness :
    ((get_regional_sales (publishRegionalSales [("Sudeste", 100)] [])).map Prod.fst
        = dashboardRegions)
    ∧ ("Norte", 0) ∈ get_regional_sales (publishRegionalSales [("Sudeste", 100)] []) :=
  regional_sales_zero_not_absent [("Sudeste", 100)] "Norte" (by decide) (by decide)

/-- **C9**: the seasonality multiplier equals the weekend factor (applied
multiplicatively whenever the date is a weekend, independent of the calendar
branches) times the factor of the single matching calendar boost/slump (the
six date-range checks are pairwise mutually exclusive and evaluated
first-match-wins), floored at the configured minimum; the result is never
below that minimum. -/
theorem seasonality_structure (d : CalDate) (u : SeasonalityDraws) :
    get_seasonality_multiplier d u = seasonalitySpec d u
    ∧ (¬ (isBlackFriday d ∧ isCyberMonday d)
      ∧ ¬ (isBlackFriday d ∧ isChristmasPeak d)
      ∧ ¬ (isBlackFriday d ∧ isPostChristmas d)
      ∧ ¬ (isBlackFriday d ∧ isJanuarySlump d)
      ∧ ¬ (isBlackFriday d ∧ isAnniversary d)
      ∧ ¬ (isCyberMonday d ∧ isChristmasPeak d)
      ∧ ¬ (isCyberMonday d ∧ isPostChristmas d)
      ∧ ¬ (isCyberMonday d ∧ isJanuarySlump d)
      ∧ ¬ (isCyberMonday d ∧ isAnniversary d)
      ∧ ¬ (isChristmasPeak d ∧ isPostChristmas d)
      ∧ ¬ (isChristmasPeak d ∧ isJanuarySlump d)
      ∧ ¬ (isChristmasPeak d ∧ isAnniversary d)
      ∧ ¬ (isPostChristmas d ∧ isJanuarySlump d)
      ∧ ¬ (isPostChristmas d ∧ isAnniversary d)
      ∧ ¬ (isJanuarySlump d ∧ isAnniversary d))
    ∧ MIN_SEASONALITY_MULTIPLIER ≤ get_seasonality_multiplier d u := by
  refine ⟨?_, ?_, ?_⟩
  · simp only [get_seasonality_multiplier, seasonalitySpec, weekendFactor, calendarFactor]
    split_ifs <;> (congr 1) <;> ring
  · simp only [isBlackFriday, isCyberMonday, isChristmasPeak, isPostChristmas,
      isJanuarySlump, isAnniversary, BLACK_FRIDAY_MONTH, CYBER_MONDAY_MONTH,
      CHRISTMAS_MONTH, JANUARY_MONTH, COMPANY_ANNIVERSARY_MONTH,
      BLACK_FRIDAY_START_DAY, BLACK_FRIDAY_END_DAY, CYBER_MONDAY_START_DAY,
      CYBER_MONDAY_END_DAY, CHRISTMAS_START_DAY, CHRISTMAS_END_DAY,
      POST_CHRISTMAS_START_DAY]
    omega
  · simp only [get_seasonality_multiplier]
    exact le_max_right _ _

/-- **C3**: the market-event tracker is the claimed two-state machine: with
an active event whose stored end date is strictly after the current date, the
same kind is returned and the state is unchanged; otherwise, when the daily
roll succeeds, a kind is picked from the fixed catalog, a duration is drawn
from the configured range `[3, 7]`, the state becomes active with end date
`current_date + duration` and the new kind is returned; when the roll fails
the state holds no active event and no kind is returned. -/
theorem check_market_event_spec (st : EventState) (cur : Int)
    (roll : ℚ) (choiceIdx : Nat) (durationDraw : Nat) :
    (∀ ev endDate, st.market_event = some ev → st.event_end_date = some endDate →
      cur < endDate →
      check_market_event st cur roll choiceIdx durationDraw = (st, some ev))
    ∧ (¬ (∃ ev endDate, st.market_event = some ev ∧ st.event_end_date = some endDate
            ∧ cur < endDate) →
        roll < MARKET_EVENT_PROBABILITY →
        ∃ kind duration,
          kind ∈ MARKET_EVENTS
          ∧ MARKET_EVENT_MIN_DURATION ≤ duration
          ∧ duration ≤ MARKET_EVENT_MAX_DURATION
          ∧ check_market_event st cur roll choiceIdx durationDraw =
              ({ market_event := some kind,
                 event_end_date := some (cur + duration) }, some kind))
    ∧ (¬ (∃ ev endDate, st.market_event = some ev ∧ st.event_end_date = some endDate
            ∧ cur < endDate) →
        ¬ roll < MARKET_EVENT_PROBABILITY →
        (check_market_event st cur roll choiceIdx durationDraw).1.market_event = none
        ∧ (check_market_event st cur roll choiceIdx durationDraw).2 = none) := by
  have hlen : MARKET_EVENTS.length = 4 := by decide
  have hmod : choiceIdx % MARKET_EVENTS.length < MARKET_EVENTS.length :=
    Nat.mod_lt _ (by decide)
  have hkind : MARKET_EVENTS.getD (choiceIdx % MARKET_EVENTS.length) "" ∈ MARKET_EVENTS := by
    rw [List.getD_eq_getElem?_getD, List.getElem?_eq_getElem hmod]
    exact List.getElem_mem _
  have hattempt : roll < MARKET_EVENT_PROBABILITY →
      ∃ kind duration,
        kind ∈ MARKET_EVENTS
        ∧ MARKET_EVENT_MIN_DURATION ≤ duration
        ∧ duration ≤ MARKET_EVENT_MAX_DURATION
        ∧ attempt_new_event st cur roll choiceIdx durationDraw =
            ({ market_event := some kind,
               event_end_date := some (cur + duration) }, some kind) := by
    intro hroll
    refine ⟨MARKET_EVENTS.getD (choiceIdx % MARKET_EVENTS.length) "",
      MARKET_EVENT_MIN_DURATION
        + durationDraw % (MARKET_EVENT_MAX_DURATION + 1 - MARKET_EVENT_MIN_DURATION),
      hkind, Nat.le_add_right _ _, ?_, ?_⟩
    · have : durationDraw % (MARKET_EVENT_MAX_DURATION + 1 - MARKET_EVENT_MIN_DURATION)
          < MARKET_EVENT_MAX_DURATION + 1 - MARKET_EVENT_MIN_DURATION :=
        Nat.mod_lt _ (by decide)
      simp only [MARKET_EVENT_MIN_DURATION, MARKET_EVENT_MAX_DURATION] at this ⊢
      omega
    · simp [attempt_new_event, hroll]
  have hattemptFail : ¬ roll < MARKET_EVENT_PROBABILITY →
      (attempt_new_event st cur roll choiceIdx durationDraw).1.market_event = none
      ∧ (attempt_new_event st cur roll choiceIdx durationDraw).2 = none := by
    intro hroll
    simp [attempt_new_event, hroll]
  refine ⟨?_, ?_, ?_⟩
  · intro ev endDate hev hend hlt
    simp [check_market_event, hev, hend, hlt]
  · intro hnotActive hroll
    rcases hev : st.market_event with _ | ev
    · simpa [check_market_event, hev] using hattempt hroll
    · rcases hend : st.event_end_date with _ | endDate
      · simpa [check_market_event, hev, hend] using hattempt hroll
      · have hge : ¬ cur < endDate := fun hlt => hnotActive ⟨ev, endDate, hev, hend, hlt⟩
        simpa [check_market_event, hev, hend, hge] using hattempt hroll
  · intro hnotActive hroll
    rcases hev : st.market_event with _ | ev
    · simpa [check_market_event, hev] using hattemptFail hroll
    · rcases hend : st.event_end_date with _ | endDate
      · simpa [check_market_event, hev, hend] using hattemptFail hroll
      · have hge : ¬ cur < endDate := fun hlt => hnotActive ⟨ev, endDate, hev, hend, hlt⟩
        simpa [check_market_event, hev, hend, hge] using hattemptFail hroll

theorem check_market_event_spec_witness :
    check_market_event ⟨some "viral", some 10⟩ 5 (1/2) 0 0
      = (⟨some "viral", some 10⟩, some "viral") :=
  (check_market_event_spec ⟨some "viral", some 10⟩ 5 (1/2) 0 0).1 "viral" 10
    rfl rfl (by norm_num)

/-! ## Order-date invariants of the generated data (C4) -/

/-- The enrollment date stored at one index of a customer table. -/
def createdAtAt (custs : List CustomerRec) (j : Nat) : Option Int :=
  custs[j]?.map (fun c => c.created_at)

/-- The two date invariants of one generated order, relative to a customer
table: delivery on/after the order date, order date on/after the customer's
enrollment date. -/
def OrderOk (custs : List CustomerRec) (o : OrderRec) : Prop :=
  o.order_date ≤ o.delivery_date
  ∧ ∀ m, custs[o.customerIdx]? = some m → m.created_at ≤ o.order_date

/-- Boolean form of `OrderOk`, used to state the run-level invariant without
propositional hypotheses. -/
def orderOkB (custs : List CustomerRec) (o : OrderRec) : Bool :=
  decide (o.order_date ≤ o.delivery_date)
  && (match custs[o.customerIdx]? with
      | some m => decide (m.created_at ≤ o.order_date)
      | none => true)

theorem orderOk_of_created_eq {custs custs' : List CustomerRec} {o : OrderRec}
    (hpres : ∀ j, createdAtAt custs' j = createdAtAt custs j)
    (h : OrderOk custs o) : OrderOk custs' o := by
  refine ⟨h.1, fun m hm => ?_⟩
  have hmap := hpres o.customerIdx
  unfold createdAtAt at hmap
  rw [hm] at hmap
  cases hm' : custs[o.customerIdx]? with
  | none => rw [hm'] at hmap; simp at hmap
  | some m' =>
    rw [hm'] at hmap
    simp only [Option.map_some'] at hmap
    rw [Option.some.injEq] at hmap
    rw [hmap]
    exact h.2 m' hm'

theorem validIndices_created_le (custs : List CustomerRec) (cur : Int) (idx : Nat)
    (h : idx ∈ validIndices custs cur) :
    ∃ m, custs[idx]? = some m ∧ m.created_at ≤ cur := by
  simp only [validIndices, List.mem_filter, List.mem_range] at h
  obtain ⟨-, hcond⟩ := h
  rw [List.get?_eq_getElem?] at hcond
  cases hm : custs[idx]? with
  | none => rw [hm] at hcond; simp at hcond
  | some m =>
    rw [hm] at hcond
    simp only [Bool.and_eq_true, decide_eq_true_eq] at hcond
    exact ⟨m, rfl, hcond.1⟩

theorem getD_min_mem {l : List Nat} (h : ¬ l.isEmpty = true) (n d : Nat) :
    l.getD (min n (l.length - 1)) d ∈ l := by
  have hne : l ≠ [] := fun he => h (by simp [he])
  have hlen : 0 < l.length := List.length_pos.mpr hne
  have hlt : min n (l.length - 1) < l.length := by omega
  rw [List.getD_eq_getElem?_getD, List.getElem?_eq_getElem hlt]
  exact List.getElem_mem _

theorem pickWeighted_mem (custs : List CustomerRec) (pool : List Nat) (u : ℚ)
    (h : ¬ pool.isEmpty = true) : pickWeighted custs pool u ∈ pool := by
  unfold pickWeighted
  exact getD_min_mem h _ _

theorem sample_subset (custs : List CustomerRec) :
    ∀ (k : Nat) (pool : List Nat) (s : Nat),
      ∀ i ∈ (sampleWithoutReplacement custs k pool s).1, i ∈ pool := by
  intro k
  induction k with
  | zero =>
    intro pool s i hi
    simp [sampleWithoutReplacement] at hi
  | succ k ih =>
    intro pool s i hi
    match pool with
    | [] => simp [sampleWithoutReplacement] at hi
    | p :: ps =>
      have hne : ¬ (p :: ps).isEmpty = true := by simp
      rw [show sampleWithoutReplacement custs (k + 1) (p :: ps) s
          = (pickWeighted custs (p :: ps) (randUnit s).1 ::
              (sampleWithoutReplacement custs k
                ((p :: ps).erase (pickWeighted custs (p :: ps) (randUnit s).1))
                (randUnit s).2).1,
             (sampleWithoutReplacement custs k
                ((p :: ps).erase (pickWeighted custs (p :: ps) (randUnit s).1))
                (randUnit s).2).2) from rfl] at hi
      rcases List.mem_cons.mp hi with rfl | hmem
      · exact pickWeighted_mem custs (p :: ps) _ hne
      · exact List.erase_subset _ _ (ih _ _ i hmem)

theorem processBuyer_created_at (products : List ProductRec) (custs : List CustomerRec)
    (cur : Int) (orderIdx idx : Nat) (st : Streams) (j : Nat) :
    createdAtAt (processBuyer products custs cur orderIdx idx st).1 j
      = createdAtAt custs j := by
  have hfst : (processBuyer products custs cur orderIdx idx st).1
      = custs.set idx { custs.getD idx emptyCustomer with
          purchase_count := (custs.getD idx emptyCustomer).purchase_count + 1 } := rfl
  unfold createdAtAt
  rw [hfst]
  by_cases hj : idx = j
  · subst hj
    rw [List.getElem?_set_self']
    cases hm : custs[idx]? with
    | none => rfl
    | some m' => simp [List.getD_eq_getElem?_getD, hm]
  · rw [List.getElem?_set_ne hj]

theorem processBuyer_order_spec (products : List ProductRec) (custs : List CustomerRec)
    (cur : Int) (orderIdx idx : Nat) (st : Streams) :
    (processBuyer products custs cur orderIdx idx st).2.1.customerIdx = idx
    ∧ (processBuyer products custs cur orderIdx idx st).2.1.order_date = cur
    ∧ (processBuyer products custs cur orderIdx idx st).2.1.order_date
        ≤ (processBuyer products custs cur orderIdx idx st).2.1.delivery_date := by
  refine ⟨rfl, rfl, ?_⟩
  show cur ≤ (processBuyer products custs cur orderIdx idx st).2.1.delivery_date
  simp only [processBuyer]
  exact le_add_of_nonneg_right (Int.natCast_nonneg _)

theorem processBuyers_spec (products : List ProductRec) (cur : Int) :
    ∀ (buyers : List Nat) (custs : List CustomerRec) (orderIdx : Nat) (st : Streams),
      (∀ j, createdAtAt (processBuyers products cur buyers custs orderIdx st).1 j
          = createdAtAt custs j)
      ∧ ∀ o ∈ (processBuyers products cur buyers custs orderIdx st).2.1,
          o.customerIdx ∈ buyers ∧ o.order_date = cur ∧ o.order_date ≤ o.delivery_date := by
  intro buyers
  induction buyers with
  | nil =>
    intro custs orderIdx st
    exact ⟨fun j => rfl, fun o ho => absurd ho (List.not_mem_nil o)⟩
  | cons idx rest ih =>
    intro custs orderIdx st
    constructor
    · intro j
      have hstep : createdAtAt (processBuyers products cur (idx :: rest) custs orderIdx st).1 j
          = createdAtAt (processBuyers products cur rest
              (processBuyer products custs cur orderIdx idx st).1 (orderIdx + 1)
              (processBuyer products custs cur orderIdx idx st).2.2.2).1 j := rfl
      rw [hstep, (ih _ _ _).1 j, processBuyer_created_at]
    · intro o ho
      have hred : (processBuyers products cur (idx :: rest) custs orderIdx st).2.1
          = (processBuyer products custs cur orderIdx idx st).2.1 ::
            (processBuyers products cur rest
              (processBuyer products custs cur orderIdx idx st).1 (orderIdx + 1)
              (processBuyer products custs cur orderIdx idx st).2.2.2).2.1 := rfl
      rw [hred] at ho
      rcases List.mem_cons.mp ho with rfl | hmem
      · obtain ⟨h1, h2, h3⟩ := processBuyer_order_spec products custs cur orderIdx idx st
        exact ⟨by rw [h1]; exact List.mem_cons_self idx rest, h2, h3⟩
      · obtain ⟨h1, h2, h3⟩ := (ih _ _ _).2 o hmem
        exact ⟨List.mem_cons_of_mem idx h1, h2, h3⟩

theorem dayStepSell_spec (products : List ProductRec) (custs : List CustomerRec)
    (cur : Int) (dailyVolume : Nat) (evSt : EventState) (st : Streams) (baseOrders : Nat) :
    (∀ j, createdAtAt (dayStepSell products custs cur dailyVolume evSt st baseOrders).1 j
        = createdAtAt custs j)
    ∧ ∀ o ∈ (dayStepSell products custs cur dailyVolume evSt st baseOrders).2.2.2.1,
        OrderOk (dayStepSell products custs cur dailyVolume evSt st baseOrders).1 o := by
  by_cases hempty : (validIndices custs cur).isEmpty = true
  · have heq : dayStepSell products custs cur dailyVolume evSt st baseOrders
        = (custs, evSt, st, [], []) := by
      simp [dayStepSell, hempty]
    rw [heq]
    exact ⟨fun j => rfl, fun o ho => absurd ho (List.not_mem_nil o)⟩
  · have heq : dayStepSell products custs cur dailyVolume evSt st baseOrders
        = ((processBuyers products cur
              (sampleWithoutReplacement custs
                (min dailyVolume (validIndices custs cur).length)
                (validIndices custs cur) st.np).1 custs baseOrders
              { st with np := (sampleWithoutReplacement custs
                  (min dailyVolume (validIndices custs cur).length)
                  (validIndices custs cur) st.np).2 }).1,
           evSt,
           (processBuyers products cur
              (sampleWithoutReplacement custs
                (min dailyVolume (validIndices custs cur).length)
                (validIndices custs cur) st.np).1 custs baseOrders
              { st with np := (sampleWithoutReplacement custs
                  (min dailyVolume (validIndices custs cur).length)
                  (validIndices custs cur) st.np).2 }).2.2.2,
           (processBuyers products cur
              (sampleWithoutReplacement custs
                (min dailyVolume (validIndices custs cur).length)
                (validIndices custs cur) st.np).1 custs baseOrders
              { st with np := (sampleWithoutReplacement custs
                  (min dailyVolume (validIndices custs cur).length)
                  (validIndices custs cur) st.np).2 }).2.1,
           (processBuyers products cur
              (sampleWithoutReplacement custs
                (min dailyVolume (validIndices custs cur).length)
                (validIndices custs cur) st.np).1 custs baseOrders
              { st with np := (sampleWithoutReplacement custs
                  (min dailyVolume (validIndices custs cur).length)
                  (validIndices custs cur) st.np).2 }).2.2.1) := by
      simp only [dayStepSell]
      rw [if_neg hempty]
    rw [heq]
    constructor
    · intro j
      exact (processBuyers_spec products cur _ custs baseOrders _).1 j
    · intro o ho
      obtain ⟨hidx, hdate, hdel⟩ :=
        (processBuyers_spec products cur _ custs baseOrders _).2 o ho
      have hvalid : o.customerIdx ∈ validIndices custs cur :=
        sample_subset custs _ _ _ _ hidx
      obtain ⟨m, hm, hle⟩ := validIndices_created_le custs cur o.customerIdx hvalid
      refine orderOk_of_created_eq
        (fun j => (processBuyers_spec products cur _ custs baseOrders _).1 j)
        ⟨hdel, fun m' hm' => ?_⟩
      rw [hm, Option.some.injEq] at hm'
      rw [← hm', hdate]
      exact hle

theorem dayStep_spec (products : List ProductRec) (custs : List CustomerRec)
    (startOrd cur : Int) (evSt : EventState) (st : Streams) (baseOrders : Nat) :
    (∀ j, createdAtAt (dayStep products custs startOrd cur evSt st baseOrders).1 j
        = createdAtAt custs j)
    ∧ ∀ o ∈ (dayStep products custs startOrd cur evSt st baseOrders).2.2.2.1,
        OrderOk (dayStep products custs startOrd cur evSt st baseOrders).1 o := by
  simp only [dayStep]
  split
  · exact dayStepSell_spec products custs cur _ _ _ baseOrders
  · exact ⟨fun j => rfl, fun o ho => absurd ho (List.not_mem_nil o)⟩

theorem runDays_ok (products : List ProductRec) (startOrd todayOrd : Int) :
    ∀ (fuel : Nat) (cur : Int) (custs : List CustomerRec) (ev : EventState)
      (st : Streams) (orders : List OrderRec) (items : List ItemRec),
      (∀ o ∈ orders, OrderOk custs o) →
      ∀ o ∈ (runDays products startOrd todayOrd fuel cur custs ev st orders items).2.1,
        OrderOk (runDays products startOrd todayOrd fuel cur custs ev st orders items).1 o := by
  intro fuel
  induction fuel with
  | zero =>
    intro cur custs ev st orders items h o ho
    exact h o ho
  | succ fuel ih =>
    intro cur custs ev st orders items h o ho
    by_cases hcur : todayOrd < cur
    · rw [show runDays products startOrd todayOrd (fuel + 1) cur custs ev st orders items
          = (custs, orders, items, ev, st) from by simp [runDays, hcur]] at ho ⊢
      exact h o ho
    · rw [show runDays products startOrd todayOrd (fuel + 1) cur custs ev st orders items
          = runDays products startOrd todayOrd fuel (cur + 1)
              (dayStep products custs startOrd cur ev st orders.length).1
              (dayStep products custs startOrd cur ev st orders.length).2.1
              (dayStep products custs startOrd cur ev st orders.length).2.2.1
              (orders ++ (dayStep products custs startOrd cur ev st orders.length).2.2.2.1)
              (items ++ (dayStep products custs startOrd cur ev st orders.length).2.2.2.2)
          from by simp [runDays, hcur]] at ho ⊢
      refine ih (cur + 1) _ _ _ _ _ ?_ o ho
      intro o' ho'
      rcases List.mem_append.mp ho' with hold | hnew
      · exact orderOk_of_created_eq
          (fun j => (dayStep_spec products custs startOrd cur ev st orders.length).1 j)
          (h o' hold)
      · exact (dayStep_spec products custs startOrd cur ev st orders.length).2 o' hnew

/-- **C4**: in every simulation run, every generated order satisfies
`delivery_date ≥ order_date` and `order_date ≥` the enrollment
(`created_at`) date of the order's customer. -/
theorem orders_dates_consistent (seed : Nat) (opts : SimOptions) (today : Civil) :
    (simulateRun seed opts today).orders.all
      (orderOkB (simulateRun seed opts today).customers) = true := by
  rw [List.all_eq_true]
  intro o ho
  have h : OrderOk (simulateRun seed opts today).customers o := by
    exact runDays_ok
      (genPopulation opts (today.year - (opts.years : Int))
        (daysFromCivil today.year today.month today.day)
        { py := seed, np := seed, fk := seed }).1
      (daysFromCivil (today.year - (opts.years : Int)) 1 1)
      (daysFromCivil today.year today.month today.day)
      ((daysFromCivil today.year today.month today.day
        - daysFromCivil (today.year - (opts.years : Int)) 1 1).toNat + 1)
      (daysFromCivil (today.year - (opts.years : Int)) 1 1)
      (genPopulation opts (today.year - (opts.years : Int))
        (daysFromCivil today.year today.month today.day)
        { py := seed, np := seed, fk := seed }).2.1
      ⟨none, none⟩
      (genPopulation opts (today.year - (opts.years : Int))
        (daysFromCivil today.year today.month today.day)
        { py := seed, np := seed, fk := seed }).2.2
      [] []
      (fun o' ho' => absurd ho' (List.not_mem_nil o'))
      o ho
  simp only [orderOkB, Bool.and_eq_true, decide_eq_true_eq]
  refine ⟨h.1, ?_⟩
  cases hm : (simulateRun seed opts today).customers[o.customerIdx]? with
  | none => rfl
  | some m => simpa using h.2 m hm

/-! ## Determinism of the run (C2) -/

/-- **C2**: two simulation runs with identical seed and identical run
parameters (on the same run calendar date) produce identical generated
record counts and identical first-N records; the embedded pipeline is a pure
function of (seed, parameters, run date) because every random draw is taken
from one of the three streams seeded at the start of the run. -/
theorem simulate_run_deterministic (seed seed' : Nat) (opts opts' : SimOptions)
    (today today' : Civil) (n : Nat)
    (hs : seed = seed') (ho : opts = opts') (ht : today = today') :
    (simulateRun seed opts today).products.length
        = (simulateRun seed' opts' today').products.length
    ∧ (simulateRun seed opts today).customers.length
        = (simulateRun seed' opts' today').customers.length
    ∧ (simulateRun seed opts today).orders.length
        = (simulateRun seed' opts' today').orders.length
    ∧ (simulateRun seed opts today).order_items.length
        = (simulateRun seed' opts' today').order_items.length
    ∧ (simulateRun seed opts today).orders.take n
        = (simulateRun seed' opts' today').orders.take n
    ∧ (simulateRun seed opts today).order_items.take n
        = (simulateRun seed' opts' today').order_items.take n := by
  subst hs
  subst ho
  subst ht
  exact ⟨rfl, rfl, rfl, rfl, rfl, rfl⟩

theorem simulate_run_deterministic_witness :
    (simulateRun 42 ⟨2, 500, 50⟩ ⟨2026, 10, 12⟩).orders.take 100
      = (simulateRun 42 ⟨2, 500, 50⟩ ⟨2026, 10, 12⟩).orders.take 100 :=
  (simulate_run_deterministic 42 42 ⟨2, 500, 50⟩ ⟨2, 500, 50⟩
    ⟨2026, 10, 12⟩ ⟨2026, 10, 12⟩ 100 rfl rfl rfl).2.2.2.2.1

/-! ## Cache availability and the run outcome (C7) -/

/-- **C7** (counterexample): with the cache unavailable, the publish step of
`handle` raises and the run does not complete successfully — evaluated at a
concrete aggregation payload, the outcome is the propagated connection
error, not the success message. -/
theorem cache_down_fails_run :
    handlePublishOutcome false [(0, 10, 1)] [("p", 1)] [("Sudeste", 10)] 1 "2026-10-12"
      = .error "redis.exceptions.ConnectionError" := rfl

/-- **C7** (amended): the aggregation-publish step of the simulation command
has no error handling: when the cache is unavailable the connection error
propagates, the run fails and the surrounding `@transaction.atomic` rolls the
database back; with the cache available the run completes with the success
message.  (Only the dashboard-side cache reads degrade gracefully.) -/
theorem cache_down_error_propagates (byDay : List (Int × ℚ × Nat))
    (topProds : List (String × Nat)) (regional : List (String × ℚ))
    (activeToday : Nat) (todayKey : String) :
    handlePublishOutcome false byDay topProds regional activeToday todayKey
      = .error "redis.exceptions.ConnectionError"
    ∧ handlePublishOutcome true byDay topProds regional activeToday todayKey
      = .ok "Agregações atualizadas no Redis." := by
  constructor <;> rfl

end TheLook
